import Mathlib

/-!
# Verification of the `openfiles_async` client

A shallow embedding of `src/openfiles_async` (client.py, exceptions.py,
models.py) and proofs about its response interpreter, session lifecycle,
upload/download operations and constructor.

Conventions of the embedding:
* JSON values are the inductive `Json`; the outcome of `await response.json()`
  is pre-abstracted into the field `jsonBody : JsonOutcome` of
  `ClientResponse`: `ok j` for a successful decode, `decodeError` for a
  `json.JSONDecodeError` (a `ValueError`, which client.py catches at line
  114), and `contentTypeError` for an `aiohttp.ContentTypeError` — raised by
  `json()` when the response's content type fails aiohttp's
  `application/...json` gate, and NOT a `ValueError`/`TypeError`, so
  client.py line 114 does not catch it.
* Exceptions become explicit result constructors; Python control flow
  (`try`/`except`, early `raise`) is translated branch by branch.
* Filesystem and network are an explicit environment record `Env`: a
  deterministic oracle for `os.path` questions and for the HTTP transport.
* Machine floats occur in models.py only as opaque payload fields
  (`space_left`, `capacity`, `uploaded_at`); no claim concerns their numeric
  value, so JSON numbers are carried as `Int` literals.
-/

namespace Openfiles

/-- JSON values, as produced by a successful `response.json()` decode. -/
inductive Json where
  | null
  | bool (b : Bool)
  | num (n : Int)
  | str (s : String)
  | arr (elems : List Json)
  | obj (fields : List (String × Json))
deriving Repr

/-- Whether `pat` occurs as a contiguous run somewhere in the character
list: tested at every suffix. -/
def strContainsAux (pat : List Char) : List Char → Bool
  | [] => pat.isEmpty
  | c :: cs => pat.isPrefixOf (c :: cs) || strContainsAux pat cs

/-- Python's substring test `pat in s` for strings (used by client.py for
`"application/json" in content_type`, `"filename=" in content_disposition`,
and `"detail" in error_data` when `error_data` is a `str`). -/
def strContains (s pat : String) : Bool :=
  strContainsAux pat.toList s.toList

/-- `headers.get(key, "")` on a plain `dict` built from the header list:
case-sensitive lookup of the first binding. -/
def getHeader (headers : List (String × String)) (key : String) : String :=
  (List.lookup key headers).getD ""

/-- ASCII lower-casing on a character code. -/
def lowerCode (n : Nat) : Nat :=
  if 65 ≤ n ∧ n ≤ 90 then n + 32 else n

/-- ASCII-case-insensitive string equality, as multidict uses for header
names. -/
def strEqCI (a b : String) : Bool :=
  a.toList.map (fun ch => lowerCode ch.toNat)
    == b.toList.map (fun ch => lowerCode ch.toNat)

/-- `response.headers.get(key, "")` on aiohttp's case-insensitive
`CIMultiDict`: lookup ignoring ASCII case. -/
def getHeaderCI (headers : List (String × String)) (key : String) : String :=
  match headers.find? (fun p => strEqCI p.1 key) with
  | some p => p.2
  | none => ""

/-! ## models.py -/

/-- models.py `ValidationError`: one field-level validation failure.
`loc` entries are `Union[str, int]`. -/
structure ValidationError where
  loc : List (String ⊕ Int)
  msg : String
  type : String
deriving Repr, DecidableEq

/-- models.py `HTTPValidationError`: `detail: Optional[List[ValidationError]]`
with default `None`. -/
structure HTTPValidationError where
  detail : Option (List ValidationError)
deriving Repr, DecidableEq

/-- models.py `BagResponse`: `bag_id: str`. -/
structure BagResponse where
  bag_id : String
deriving Repr, DecidableEq

/-- models.py `UserResponse`. Float-valued quota fields are carried as the
integer payload of the JSON literal; no claim inspects their value. -/
structure UserResponse where
  uid : String
  space_left : Int
  capacity : Int
deriving Repr, DecidableEq

/-- models.py `FileInfoResponse`. -/
structure FileInfoResponse where
  filename : String
  size : Int
  uploaded_at : Int
  description : String
  bag_id : String
deriving Repr, DecidableEq

/-- Pydantic decode of one `loc` element (`Union[str, int]`). -/
def parseLocElem : Json → Option (String ⊕ Int)
  | .str s => some (.inl s)
  | .num n => some (.inr n)
  | _ => none

/-- Pydantic decode of a `ValidationError` entry: requires `loc`, `msg`,
`type` fields of the right shapes; extra fields are ignored (pydantic's
default). -/
def parseValidationError : Json → Option ValidationError
  | .obj fs => do
      let locJ ← List.lookup "loc" fs
      let locL ← match locJ with
        | .arr xs => xs.mapM parseLocElem
        | _ => none
      let msgS ← match List.lookup "msg" fs with
        | some (.str s) => some s
        | _ => none
      let tyS ← match List.lookup "type" fs with
        | some (.str s) => some s
        | _ => none
      pure ⟨locL, msgS, tyS⟩
  | _ => none

/-- Pydantic construction `HTTPValidationError(**error_data)`: the `detail`
keyword, when present, must be `None` or a list of decodable entries;
any other keyword is ignored. -/
def parseHTTPValidationError (fields : List (String × Json)) :
    Option HTTPValidationError :=
  match List.lookup "detail" fields with
  | none => some ⟨none⟩
  | some .null => some ⟨none⟩
  | some (.arr xs) =>
      match xs.mapM parseValidationError with
      | some entries => some ⟨some entries⟩
      | none => none
  | some _ => none

/-- Pydantic construction `BagResponse(**response_data)`. -/
def parseBagResponse : Json → Option BagResponse
  | .obj fs =>
      match List.lookup "bag_id" fs with
      | some (.str s) => some ⟨s⟩
      | _ => none
  | _ => none

/-- Pydantic construction `UserResponse(**response_data)`. -/
def parseUserResponse : Json → Option UserResponse
  | .obj fs => do
      let uidS ← match List.lookup "uid" fs with
        | some (.str s) => some s
        | _ => none
      let sl ← match List.lookup "space_left" fs with
        | some (.num n) => some n
        | _ => none
      let cap ← match List.lookup "capacity" fs with
        | some (.num n) => some n
        | _ => none
      pure ⟨uidS, sl, cap⟩
  | _ => none

/-- Pydantic construction `FileInfoResponse(**item)`. -/
def parseFileInfoResponse : Json → Option FileInfoResponse
  | .obj fs => do
      let fn ← match List.lookup "filename" fs with
        | some (.str s) => some s
        | _ => none
      let sz ← match List.lookup "size" fs with
        | some (.num n) => some n
        | _ => none
      let ua ← match List.lookup "uploaded_at" fs with
        | some (.num n) => some n
        | _ => none
      let ds ← match List.lookup "description" fs with
        | some (.str s) => some s
        | _ => none
      let bid ← match List.lookup "bag_id" fs with
        | some (.str s) => some s
        | _ => none
      pure ⟨fn, sz, ua, ds, bid⟩
  | _ => none

/-! ## exceptions.py : the three remote error kinds -/

/-- The three exception classes of exceptions.py, with the data each
constructor stores (`OpenfilesValidationError` keeps the parsed envelope,
`OpenfilesAPIError` keeps `(status_code, error_data)`,
`OpenfilesHTTPError` keeps `(status_code, text)`). -/
inductive OpenfilesErr where
  | validation (validation_error : HTTPValidationError)
  | api (status_code : Nat) (error_data : Json)
  | http (status_code : Nat) (text : String)
deriving Repr

/-! ## client.py `_handle_response` -/

/-- The three ways `await response.json()` can end in aiohttp:
a decoded value; `json.JSONDecodeError` (a subclass of `ValueError`) when
the content type passed aiohttp's gate but the body is not valid JSON; or
`aiohttp.ContentTypeError` (a `ClientResponseError`, neither a `ValueError`
nor a `TypeError`) when the content type fails the gate — raised before the
body is even parsed. -/
inductive JsonOutcome where
  | ok (j : Json)
  | decodeError
  | contentTypeError
deriving Repr

/-- Remove leading and trailing spaces. -/
def trimSpaces (l : List Char) : List Char :=
  ((l.dropWhile (fun ch => ch = ' ')).reverse.dropWhile (fun ch => ch = ' ')).reverse

/-- ASCII-case-insensitive list prefix test. -/
def isPrefixCI : List Char → List Char → Bool
  | [], _ => true
  | _ :: _, [] => false
  | a :: as, b :: bs =>
      (lowerCode a.toNat == lowerCode b.toNat) && isPrefixCI as bs

/-- The character class `[\w.+-]` of aiohttp's JSON-mimetype pattern
(ASCII part). -/
def isWordClass (c : Char) : Bool :=
  let n := c.toNat
  (48 ≤ n && n ≤ 57) || (65 ≤ n && n ≤ 90) || (97 ≤ n && n ≤ 122)
    || c == '_' || c == '.' || c == '+' || c == '-'

/-- The `[\w.+-]+?\+json` alternative of the mimetype pattern: at least one
class character, then a literal `+`, then `json`. The flag records whether
a class character has been consumed yet. -/
def plusJsonSearch : Bool → List Char → Bool
  | _, [] => false
  | seen, c :: cs =>
      (seen && c == '+' && isPrefixCI "json".toList cs)
        || (isWordClass c && plusJsonSearch true cs)

/-- The mimetype the response reports: the part of the `Content-Type`
header (case-insensitive multidict lookup) before any `;` parameters,
surrounding spaces stripped; aiohttp defaults an absent header to
`application/octet-stream`. -/
def contentTypeMimetype (headers : List (String × String)) : List Char :=
  match headers.find? (fun p => strEqCI p.1 "Content-Type") with
  | none => "application/octet-stream".toList
  | some p => trimSpaces (p.2.toList.takeWhile (fun ch => ch ≠ ';'))

/-- aiohttp's gate inside `response.json()`: the mimetype must match
`application/(?:[\w.+-]+?\+)?json` (matched here up to ASCII case; the
anchoring minutiae vary across aiohttp versions, and every version accepts
`application/json` and rejects `text/html`). A response whose mimetype
fails this gate makes `json()` raise `aiohttp.ContentTypeError`. -/
def jsonAcceptableContentType (headers : List (String × String)) : Bool :=
  let mt := contentTypeMimetype headers
  isPrefixCI "application/".toList mt
    && (isPrefixCI "json".toList (mt.drop 12) || plusJsonSearch false (mt.drop 12))

/-- An aiohttp `ClientResponse` as `_handle_response` consumes it:
status, headers, and the three ways client.py reads the body
(`json()` pre-abstracted to its three-way outcome, `text()`, `read()`).
A record models an actual aiohttp response when `jsonBody` agrees with the
headers and body text: `contentTypeError` exactly when
`jsonAcceptableContentType headers` is false, and `decodeError` exactly
when the gate passes but the body text is not valid JSON. -/
structure ClientResponse where
  status : Nat
  headers : List (String × String)
  jsonBody : JsonOutcome
  textBody : String
  rawBody : List Nat

/-- aiohttp `ClientResponse.ok`: `400 > status`. -/
def response_ok (r : ClientResponse) : Bool :=
  r.status < 400

/-- Result of `_handle_response`: a returned value (decoded JSON or raw
bytes), one of the three library exceptions, or some other exception
escaping uncaught (e.g. a `JSONDecodeError` on the success path). -/
inductive HandleResult where
  | ret (v : Json)
  | retBytes (b : List Nat)
  | err (e : OpenfilesErr)
  | otherRaise (what : String)
deriving Repr

/-- The error branch of `_handle_response` (client.py lines 94-117) after
`error_data = await response.json()` succeeded.

* `error_data` a dict: `"detail" in error_data` tests key membership;
  if the value is a `str` → `OpenfilesAPIError(status, error_data)`
  (line 102); otherwise the inner `try` at lines 104-109 runs: it parses
  `HTTPValidationError(**error_data)` and then executes
  `raise OpenfilesValidationError(validation_error)` — but that `raise`
  sits INSIDE the same `try`, so the bare `except Exception:` at line 107
  catches the freshly raised `OpenfilesValidationError` too, and both the
  parse-success and the parse-failure branch end in
  `raise OpenfilesAPIError(status, error_data)`;
  with no `detail` key → `OpenfilesAPIError(status, error_data)` (line 112).
* `error_data` a list: `"detail" in error_data` is element membership; when
  it holds, `error_data["detail"]` at line 100 raises `TypeError`, caught by
  the outer `except (ValueError, TypeError)` → `OpenfilesHTTPError`;
  otherwise line 112 → `OpenfilesAPIError`.
* `error_data` a str: `"detail" in error_data` is a substring test; when it
  holds, `error_data["detail"]` raises `TypeError` → `OpenfilesHTTPError`;
  otherwise → `OpenfilesAPIError`.
* any other decoded value (`None`, number, bool): the `in` operator itself
  raises `TypeError` → `OpenfilesHTTPError`. -/
def handleErrorJson (status : Nat) (errorData : Json) (text : String) :
    HandleResult :=
  match errorData with
  | .obj fs =>
      match List.lookup "detail" fs with
      | some (.str _) => .err (.api status errorData)
      | some _ =>
          match parseHTTPValidationError fs with
          | some _ => .err (.api status errorData)
          | none => .err (.api status errorData)
      | none => .err (.api status errorData)
  | .arr xs =>
      if xs.any (fun j => match j with | .str s => s == "detail" | _ => false)
      then .err (.http status text)
      else .err (.api status errorData)
  | .str s =>
      if strContains s "detail" then .err (.http status text)
      else .err (.api status errorData)
  | _ => .err (.http status text)

/-- client.py `AsyncOpenfilesClient._handle_response`.

Error statuses: `error_data = await response.json()` —
a `json.JSONDecodeError` (a `ValueError`) is caught by the
`except (ValueError, TypeError)` at line 114 and becomes
`OpenfilesHTTPError(status, text)`, but an `aiohttp.ContentTypeError`
(raised when the content type fails aiohttp's gate, and not a
`ValueError`/`TypeError`) escapes `_handle_response` unclassified;
a decoded value goes through `handleErrorJson`. Success statuses: return
decoded JSON when the raw `Content-Type` header contains
`"application/json"` (a failing `json()` then lets its exception escape
uncaught), raw bytes otherwise. -/
def handle_response (r : ClientResponse) : HandleResult :=
  if ¬ response_ok r then
    match r.jsonBody with
    | .contentTypeError => .otherRaise "aiohttp.ContentTypeError"
    | .decodeError => .err (.http r.status r.textBody)
    | .ok errorData => handleErrorJson r.status errorData r.textBody
  else
    if strContains (getHeaderCI r.headers "Content-Type") "application/json" then
      match r.jsonBody with
      | .ok j => .ret j
      | .decodeError => .otherRaise "json.JSONDecodeError"
      | .contentTypeError => .otherRaise "aiohttp.ContentTypeError"
    else
      .retBytes r.rawBody

/-! ## client.py : construction (`__init__`) -/

/-- The immutable configuration a constructed client carries. -/
structure Client where
  api_token : String
  base_url : String
deriving Repr, DecidableEq

/-- `AsyncOpenfilesClient.BASE_URL`. -/
def BASE_URL : String := "https://app.openfiles.xyz"

/-- Python's `a or b` on `Optional[str]` operands: a falsy left operand
(`None` or `""`) selects the right operand. -/
def pyOrStr (a b : Option String) : Option String :=
  match a with
  | some s => if s = "" then b else some s
  | none => b

/-- `AsyncOpenfilesClient.__init__` (client.py lines 31-47):
`self.api_token = api_token or os.environ.get("OPENFILES_API_TOKEN")`;
`if not self.api_token: raise ValueError(...)`;
`self.base_url = base_url or self.BASE_URL`. `env_token` is the value of
the `OPENFILES_API_TOKEN` environment variable (`none` = unset). The
`ValueError` is the `.error` case. -/
def init_client (api_token env_token base_url : Option String) :
    Except String Client :=
  match pyOrStr api_token env_token with
  | none => .error "El token de API debe proporcionarse"
  | some t =>
      if t = "" then .error "El token de API debe proporcionarse"
      else .ok ⟨t, (pyOrStr base_url (some BASE_URL)).getD BASE_URL⟩

/-! ## client.py : session lifecycle -/

/-- An aiohttp `ClientSession` handle: an identity plus its `closed` flag. -/
structure Session where
  sid : Nat
  closed : Bool
deriving Repr, DecidableEq

/-- The mutable session slot `self._session` of a client, plus a counter
supplying the identity of the next `aiohttp.ClientSession()` constructed. -/
structure ClientState where
  session : Option Session
  nextSid : Nat
deriving Repr, DecidableEq

/-- `self._session` holds an open session. -/
def sessionOpen (st : ClientState) : Bool :=
  match st.session with
  | some s => !s.closed
  | none => false

/-- client.py `_ensure_session` (lines 58-61):
`if self._session is None or self._session.closed:
self._session = aiohttp.ClientSession()`. -/
def ensure_session (st : ClientState) : ClientState :=
  match st.session with
  | none => ⟨some ⟨st.nextSid, false⟩, st.nextSid + 1⟩
  | some s =>
      if s.closed then ⟨some ⟨st.nextSid, false⟩, st.nextSid + 1⟩
      else st

/-- client.py `close` (lines 63-66):
`if self._session and not self._session.closed:
await self._session.close()` — closing marks the held session closed. -/
def close (st : ClientState) : ClientState :=
  match st.session with
  | none => st
  | some s =>
      if !s.closed then ⟨some ⟨s.sid, true⟩, st.nextSid⟩
      else st

/-- client.py `__aenter__` (lines 49-52): ensure the session. -/
def aenter (st : ClientState) : ClientState :=
  ensure_session st

/-- client.py `__aexit__` (lines 54-56): `await self.close()`, on normal
and on exceptional exit alike. -/
def aexit (st : ClientState) : ClientState :=
  close st

/-! ## client.py : requests and the operation environment -/

/-- A multipart/form field value: plain text or a file part with content
bytes and a filename. -/
inductive FormVal where
  | text (s : String)
  | file (content : List Nat) (filename : String)
deriving Repr

/-- HTTP methods used by the client. -/
inductive Method where
  | get
  | post
  | delete
deriving Repr, DecidableEq

/-- One HTTP request as the client builds it: method, url,
headers (always `{"X-Authorization": token}` from `_get_headers`), and
`aiohttp.FormData` fields in order. -/
structure Request where
  method : Method
  url : String
  headers : List (String × String)
  formFields : List (String × FormVal)
deriving Repr

/-- client.py `_get_headers` (lines 68-75). -/
def get_headers (c : Client) : List (String × String) :=
  [("X-Authorization", c.api_token)]

/-- The deterministic environment an operation runs against: the local
filesystem oracles (`Path.exists`, `Path.is_dir`, file reads), the zip
archiving step of `upload_folder` (`zipOk` = the archiving raised no
exception, `zipBytes` = the archive's bytes), and the HTTP transport
mapping each request to its response. -/
structure Env where
  fsExists : String → Bool
  fsIsDir : String → Bool
  readFile : String → List Nat
  zipOk : String → Bool
  zipBytes : String → List Nat
  http : Request → ClientResponse

/-- `Path(p).name` for paths without a trailing separator: the part after
the last `/`. -/
def pathName (p : String) : String :=
  String.mk ((p.toList.reverse.takeWhile (fun ch => ch ≠ '/')).reverse)

/-- `str(Path(dir) / file)` for the join cases `download_file` performs. -/
def pathJoin (dir file : String) : String :=
  match dir.toList.getLast? with
  | some '/' => dir ++ file
  | _ => dir ++ "/" ++ file

/-- How one public operation call ends: a value returned, a local
precondition exception raised before any request (`FileNotFoundError`), one
of the three remote error kinds from `_handle_response`, or another
uncaught exception (e.g. a pydantic decode failure of the success body). -/
inductive OpOutcome (α : Type) where
  | ok (v : α)
  | localError (message : String)
  | remoteError (e : OpenfilesErr)
  | otherRaise (what : String)
deriving Repr

/-- Result of running one operation: its outcome, the session state after
the call, and the list of HTTP requests issued, in order. -/
structure OpResult (α : Type) where
  outcome : OpOutcome α
  state : ClientState
  requests : List Request
deriving Repr

/-! ## client.py : the eight public operations

Each operation first runs `await self._ensure_session()`, builds its
request, sends it, and pipes the response through `_handle_response`.
None of them ever touches `self._session` again, so the state each
returns is exactly `ensure_session st`. -/

/-- client.py `upload_file` (lines 146-176): not-found check before any
request, then `POST {base_url}/api/files/upload` with multipart fields
`file` (full file content, original filename) and `description`, and
`BagResponse(**response_data)` on the returned value. -/
def upload_file (env : Env) (c : Client) (st : ClientState)
    (file_path : String) (description : String) : OpResult BagResponse :=
  let st := ensure_session st
  if !env.fsExists file_path then
    ⟨.localError ("Archivo no encontrado: " ++ file_path), st, []⟩
  else
    let req : Request := ⟨.post, c.base_url ++ "/api/files/upload", get_headers c,
      [("file", .file (env.readFile file_path) (pathName file_path)),
       ("description", .text description)]⟩
    match handle_response (env.http req) with
    | .ret j =>
        match parseBagResponse j with
        | some b => ⟨.ok b, st, [req]⟩
        | none => ⟨.otherRaise "BagResponse(**response_data)", st, [req]⟩
    | .retBytes _ => ⟨.otherRaise "BagResponse(**response_data)", st, [req]⟩
    | .err e => ⟨.remoteError e, st, [req]⟩
    | .otherRaise w => ⟨.otherRaise w, st, [req]⟩

/-- Result of `upload_folder`, additionally recording whether the
temporary zip path was created (`tempfile.NamedTemporaryFile` ran) and
whether that file still exists once the call has fully unwound. -/
structure FolderUploadResult where
  outcome : OpOutcome BagResponse
  state : ClientState
  requests : List Request
  tempCreated : Bool
  tempRemains : Bool
deriving Repr

/-- The `finally` block of `upload_folder` (client.py lines 221-224):
`if os.path.exists(temp_path): os.unlink(temp_path)`. Takes whether the
temp file exists when the block runs, returns whether it exists after. -/
def cleanupTemp (tempExists : Bool) : Bool :=
  if tempExists then false else tempExists

/-- client.py `upload_folder` (lines 178-224): not-found / not-a-directory
check before any request; `NamedTemporaryFile(delete=False)` creates the
temp path; inside `try`: `_create_zip` in an executor (its exception, if
any, propagates), then `POST {base_url}/api/folders/upload` with the zip
bytes under filename `<folderName>.zip`, then `BagResponse(**...)`;
the `finally` deletes the temp file on every one of these exit paths. -/
def upload_folder (env : Env) (c : Client) (st : ClientState)
    (folder_path : String) (description : String) : FolderUploadResult :=
  let st := ensure_session st
  if !env.fsExists folder_path || !env.fsIsDir folder_path then
    ⟨.localError ("Carpeta no encontrada: " ++ folder_path), st, [], false, false⟩
  else
    if !env.zipOk folder_path then
      ⟨.otherRaise "zipfile", st, [], true, cleanupTemp true⟩
    else
      let req : Request := ⟨.post, c.base_url ++ "/api/folders/upload", get_headers c,
        [("file", .file (env.zipBytes folder_path) (pathName folder_path ++ ".zip")),
         ("description", .text description)]⟩
      let outcome : OpOutcome BagResponse :=
        match handle_response (env.http req) with
        | .ret j =>
            match parseBagResponse j with
            | some b => .ok b
            | none => .otherRaise "BagResponse(**response_data)"
        | .retBytes _ => .otherRaise "BagResponse(**response_data)"
        | .err e => .remoteError e
        | .otherRaise w => .otherRaise w
      ⟨outcome, st, [req], true, cleanupTemp true⟩

/-- client.py `delete_file` (lines 241-258): `DELETE {base_url}/api/bag`
with form field `bag_id`; the interpreted response value is discarded. -/
def delete_file (env : Env) (c : Client) (st : ClientState)
    (bag_id : String) : OpResult Unit :=
  let st := ensure_session st
  let req : Request := ⟨.delete, c.base_url ++ "/api/bag", get_headers c,
    [("bag_id", .text bag_id)]⟩
  match handle_response (env.http req) with
  | .err e => ⟨.remoteError e, st, [req]⟩
  | .otherRaise w => ⟨.otherRaise w, st, [req]⟩
  | _ => ⟨.ok (), st, [req]⟩

/-- The request both download operations send:
`GET {base_url}/api/bag/download/{bag_id}`. -/
def download_request (c : Client) (bag_id : String) : Request :=
  ⟨.get, c.base_url ++ "/api/bag/download/" ++ bag_id, get_headers c, []⟩

/-- The optional-quote-then-nonempty-run step of the regex
`filename="?([^"]+)"?` at one candidate position: consume a leading `"` if
present, capture a maximal nonempty run of non-`"` characters. When the
leading `"` is immediately followed by another `"` (or by nothing),
backtracking to the zero-width `"?` still leaves `[^"]+` facing a `"`, so
the whole position fails. -/
def filenameCapture (rest : List Char) : Option (List Char) :=
  match rest with
  | '"' :: rest' =>
      let cap := rest'.takeWhile (fun ch => ch ≠ '"')
      if cap.isEmpty then none else some cap
  | _ =>
      let cap := rest.takeWhile (fun ch => ch ≠ '"')
      if cap.isEmpty then none else some cap

/-- `re.search(r'filename="?([^"]+)"?', s)`: try each position left to
right; a position matches when the literal `filename=` starts there and
`filenameCapture` succeeds on what follows; the first match's capture
group is returned. -/
def searchFilename : List Char → Option (List Char)
  | [] => none
  | c :: cs =>
      if "filename=".toList.isPrefixOf (c :: cs) then
        match filenameCapture ((c :: cs).drop 9) with
        | some cap => some cap
        | none => searchFilename cs
      else
        searchFilename cs

/-- client.py `_get_filename_from_headers` (lines 326-343). The headers
argument is `dict(response.headers)`, so the `Content-Disposition` lookup
here is the plain case-sensitive `dict.get`. -/
def get_filename_from_headers (headers : List (String × String)) : String :=
  let content_disposition := getHeader headers "Content-Disposition"
  if strContains content_disposition "filename=" then
    match searchFilename content_disposition.toList with
    | some cap => String.mk cap
    | none => "downloaded_file"
  else
    "downloaded_file"

/-- The destination-resolution block of `download_file` (client.py lines
286-296): no destination → the extracted original filename; an existing
directory → `destination / original_filename`; anything else → the given
destination verbatim. -/
def resolve_download_destination (fsIsDir : String → Bool)
    (headers : List (String × String)) (destination : Option String) : String :=
  let original_filename := get_filename_from_headers headers
  match destination with
  | none => original_filename
  | some d => if fsIsDir d then pathJoin d original_filename else d

/-- client.py `download_file` (lines 260-304): sends `download_request`,
interprets the response, resolves the target path, writes the content
(bytes verbatim; a `str` via `.encode()`; any other decoded JSON value has
no `.encode` and raises `AttributeError`), and returns the path string. -/
def download_file (env : Env) (c : Client) (st : ClientState)
    (bag_id : String) (destination : Option String) : OpResult String :=
  let st := ensure_session st
  let req := download_request c bag_id
  let resp := env.http req
  match handle_response resp with
  | .err e => ⟨.remoteError e, st, [req]⟩
  | .otherRaise w => ⟨.otherRaise w, st, [req]⟩
  | .retBytes _ =>
      ⟨.ok (resolve_download_destination env.fsIsDir resp.headers destination),
       st, [req]⟩
  | .ret j =>
      match j with
      | .str _ =>
          ⟨.ok (resolve_download_destination env.fsIsDir resp.headers destination),
           st, [req]⟩
      | _ => ⟨.otherRaise "content.encode", st, [req]⟩

/-- `str.encode()`: the UTF-8 bytes of a string. -/
def encodeStr (s : String) : List Nat :=
  s.toUTF8.toList.map (fun b => b.toNat)

/-- client.py `download_file_content` (lines 306-324): same request,
returns the content in memory
(`content if isinstance(content, bytes) else content.encode()`). -/
def download_file_content (env : Env) (c : Client) (st : ClientState)
    (bag_id : String) : OpResult (List Nat) :=
  let st := ensure_session st
  let req := download_request c bag_id
  match handle_response (env.http req) with
  | .err e => ⟨.remoteError e, st, [req]⟩
  | .otherRaise w => ⟨.otherRaise w, st, [req]⟩
  | .retBytes b => ⟨.ok b, st, [req]⟩
  | .ret j =>
      match j with
      | .str s => ⟨.ok (encodeStr s), st, [req]⟩
      | _ => ⟨.otherRaise "content.encode", st, [req]⟩

/-- client.py `get_user_info` (lines 345-360): `GET {base_url}/api/user`,
then `UserResponse(**response_data)`. -/
def get_user_info (env : Env) (c : Client) (st : ClientState) :
    OpResult UserResponse :=
  let st := ensure_session st
  let req : Request := ⟨.get, c.base_url ++ "/api/user", get_headers c, []⟩
  match handle_response (env.http req) with
  | .ret j =>
      match parseUserResponse j with
      | some u => ⟨.ok u, st, [req]⟩
      | none => ⟨.otherRaise "UserResponse(**response_data)", st, [req]⟩
  | .retBytes _ => ⟨.otherRaise "UserResponse(**response_data)", st, [req]⟩
  | .err e => ⟨.remoteError e, st, [req]⟩
  | .otherRaise w => ⟨.otherRaise w, st, [req]⟩

/-- client.py `get_user_files_list` (lines 362-377):
`GET {base_url}/api/user/files_list`, then
`[FileInfoResponse(**item) for item in response_data]`; a non-list value
makes the comprehension raise. -/
def get_user_files_list (env : Env) (c : Client) (st : ClientState) :
    OpResult (List FileInfoResponse) :=
  let st := ensure_session st
  let req : Request := ⟨.get, c.base_url ++ "/api/user/files_list", get_headers c, []⟩
  match handle_response (env.http req) with
  | .ret (.arr xs) =>
      match xs.mapM parseFileInfoResponse with
      | some l => ⟨.ok l, st, [req]⟩
      | none => ⟨.otherRaise "FileInfoResponse(**item)", st, [req]⟩
  | .ret _ => ⟨.otherRaise "FileInfoResponse(**item)", st, [req]⟩
  | .retBytes _ => ⟨.otherRaise "FileInfoResponse(**item)", st, [req]⟩
  | .err e => ⟨.remoteError e, st, [req]⟩
  | .otherRaise w => ⟨.otherRaise w, st, [req]⟩

/-- client.py `add_by_bag_id` (lines 379-396):
`POST {base_url}/api/bag/add_by_id` with form field `bag_id`; the
interpreted response value is discarded. -/
def add_by_bag_id (env : Env) (c : Client) (st : ClientState)
    (bag_id : String) : OpResult Unit :=
  let st := ensure_session st
  let req : Request := ⟨.post, c.base_url ++ "/api/bag/add_by_id", get_headers c,
    [("bag_id", .text bag_id)]⟩
  match handle_response (env.http req) with
  | .err e => ⟨.remoteError e, st, [req]⟩
  | .otherRaise w => ⟨.otherRaise w, st, [req]⟩
  | _ => ⟨.ok (), st, [req]⟩

/-! ## Concrete instances

Closed inputs the theorems below are instantiated at. -/

/-- One FastAPI-style validation entry, as JSON. -/
def cValEntryJson : Json :=
  .obj [("loc", .arr [.str "body", .str "name"]),
        ("msg", .str "field required"),
        ("type", .str "value_error.missing")]

/-- The fields of a validation-error body with exactly one entry. -/
def cValFields : List (String × Json) :=
  [("detail", .arr [cValEntryJson])]

/-- A validation-error body with exactly one entry. -/
def cValBody : Json := .obj cValFields

/-- The decoded form of `cValEntryJson`. -/
def cValEntry : ValidationError :=
  ⟨[.inl "body", .inl "name"], "field required", "value_error.missing"⟩

/-- A 422 response whose body is `cValBody`. -/
def cValResponse : ClientResponse :=
  ⟨422, [("Content-Type", "application/json")], .ok cValBody,
   "validation error body", []⟩

/-- A 404 response whose body has a plain-string `detail`. -/
def cDetailStrResponse : ClientResponse :=
  ⟨404, [("Content-Type", "application/json")],
   .ok (.obj [("detail", .str "Not found")]), "detail Not found", []⟩

/-- A 500 response whose content type is not JSON (so `response.json()`
raises `aiohttp.ContentTypeError`) and whose body is not JSON either. -/
def cHtmlResponse : ClientResponse :=
  ⟨500, [("Content-Type", "text/html")], .contentTypeError,
   "Internal Server Error page", []⟩

/-- A 400 response whose content type passes aiohttp's JSON gate but whose
body is not valid JSON (so `response.json()` raises
`json.JSONDecodeError`, a `ValueError`). -/
def cBadJsonResponse : ClientResponse :=
  ⟨400, [("Content-Type", "application/json")], .decodeError,
   "not json at all", []⟩

/-- A successful JSON response carrying a bag reference. -/
def cJsonOkResponse : ClientResponse :=
  ⟨200, [("Content-Type", "application/json; charset=utf-8")],
   .ok (.obj [("bag_id", .str "bag-1")]), "", [1, 2]⟩

/-- A successful binary response. -/
def cBytesOkResponse : ClientResponse :=
  ⟨200, [("Content-Type", "application/octet-stream")], .contentTypeError,
   "", [7, 8, 9]⟩

/-- A successful binary download response announcing `report.txt`. -/
def cDownloadResponse : ClientResponse :=
  ⟨200, [("Content-Type", "application/octet-stream"),
         ("Content-Disposition", "attachment; filename=\"report.txt\"")],
   .contentTypeError, "", [104, 105]⟩

/-- A client configuration. -/
def cClient : Client := ⟨"tok", BASE_URL⟩

/-- A fresh client state: no session yet. -/
def cState0 : ClientState := ⟨none, 0⟩

/-- Environment for download runs: every path exists, exactly `out` is a
directory, the transport always answers `cDownloadResponse`. -/
def cEnvDownload : Env :=
  ⟨fun _ => true, fun d => d == "out", fun _ => [], fun _ => true,
   fun _ => [], fun _ => cDownloadResponse⟩

/-- Environment where no local path exists. -/
def cEnvMissing : Env :=
  ⟨fun _ => false, fun _ => false, fun _ => [], fun _ => true,
   fun _ => [], fun _ => cHtmlResponse⟩

/-- Environment where the folder exists but archiving it fails. -/
def cEnvZipFail : Env :=
  ⟨fun _ => true, fun _ => true, fun _ => [], fun _ => false,
   fun _ => [], fun _ => cHtmlResponse⟩

/-! ## Theorems -/

/-- C1, status code_bug: the claim and the spec say a non-ok response whose
body is a parsable validation envelope makes `_handle_response` fail with
`OpenfilesValidationError` carrying the envelope. The code cannot do that:
the `raise OpenfilesValidationError(...)` at client.py line 106 stands
inside the very `try` whose `except Exception:` (line 107) replaces any
exception with `OpenfilesAPIError`. Evaluated at a 422 response whose
`detail` is one well-formed validation entry: the envelope parses (with
exactly one entry), yet the interpreter yields `OpenfilesAPIError`, and the
docstring's promised `OpenfilesValidationError` is unreachable. -/
theorem C1_validation_body_yields_ApiError :
    handle_response cValResponse = .err (.api 422 cValBody)
    ∧ parseHTTPValidationError cValFields = some ⟨some [cValEntry]⟩
    ∧ [cValEntry].length = 1 :=
  ⟨rfl, rfl, rfl⟩

/-- C2, confirmed: a non-ok response whose body decodes to a JSON object
whose `detail` field is a plain string makes `_handle_response` fail with
`OpenfilesAPIError` carrying the status code and the full decoded object,
and never with `OpenfilesValidationError`. -/
theorem C2_detail_string_yields_ApiError (r : ClientResponse)
    (fs : List (String × Json)) (s : String)
    (hok : response_ok r = false)
    (hbody : r.jsonBody = .ok (.obj fs))
    (hdetail : List.lookup "detail" fs = some (.str s)) :
    handle_response r = .err (.api r.status (.obj fs))
    ∧ ∀ e, handle_response r ≠ .err (.validation e) := by
  have hmain : handle_response r = .err (.api r.status (.obj fs)) := by
    simp [handle_response, hok, hbody, handleErrorJson, hdetail]
  refine ⟨hmain, fun e h => ?_⟩
  rw [hmain] at h
  simp at h

/-- Witness for C2: the interpreter on a concrete 404 response with a
string `detail`. -/
theorem C2_witness :
    handle_response cDetailStrResponse =
      .err (.api 404 (.obj [("detail", .str "Not found")])) :=
  (C2_detail_string_yields_ApiError cDetailStrResponse
    [("detail", .str "Not found")] "Not found" rfl rfl rfl).1

/-- C3, status code_bug: the claim and the spec say every non-ok response
whose body cannot be decoded as JSON makes `_handle_response` fail with
`OpenfilesHTTPError` carrying the raw text. The code only delivers that
when the content type passes aiohttp's JSON gate and the body itself is
malformed (`json.JSONDecodeError`, a `ValueError`, caught at client.py
line 114). When the content type is not JSON — a 500 `text/html` error
page being the archetype — `response.json()` raises
`aiohttp.ContentTypeError`, which `except (ValueError, TypeError)` does
not catch, so the call escapes unclassified instead of failing with
`OpenfilesHTTPError`. Evaluated here: the `text/html` response fails the
gate and escapes with no Openfiles error kind at all, while the
`application/json`-but-malformed response is the one case the claim's
promised classification actually happens. -/
theorem C3_content_type_error_escapes_unclassified :
    jsonAcceptableContentType cHtmlResponse.headers = false
    ∧ handle_response cHtmlResponse = .otherRaise "aiohttp.ContentTypeError"
    ∧ (∀ e, handle_response cHtmlResponse ≠ .err e)
    ∧ jsonAcceptableContentType cBadJsonResponse.headers = true
    ∧ handle_response cBadJsonResponse = .err (.http 400 "not json at all") := by
  refine ⟨rfl, rfl, ?_, rfl, rfl⟩
  intro e h
  rw [show handle_response cHtmlResponse
        = .otherRaise "aiohttp.ContentTypeError" from rfl] at h
  exact HandleResult.noConfusion h

/-- C4, confirmed: on a success status `_handle_response` returns the
JSON-decoded body when the `Content-Type` header contains
`application/json` and the raw body bytes otherwise, and never produces
any of the three error kinds. -/
theorem C4_success_returns_body (r : ClientResponse)
    (hok : response_ok r = true) :
    (∀ j, strContains (getHeaderCI r.headers "Content-Type") "application/json" = true →
        r.jsonBody = .ok j → handle_response r = .ret j)
    ∧ (strContains (getHeaderCI r.headers "Content-Type") "application/json" = false →
        handle_response r = .retBytes r.rawBody)
    ∧ (∀ e, handle_response r ≠ .err e) := by
  refine ⟨?_, ?_, ?_⟩
  · intro j hct hbody
    simp [handle_response, hok, hct, hbody]
  · intro hct
    simp [handle_response, hok, hct]
  · intro e h
    by_cases hct : strContains (getHeaderCI r.headers "Content-Type") "application/json" = true
    · cases hb : r.jsonBody with
      | ok j => simp [handle_response, hok, hct, hb] at h
      | decodeError => simp [handle_response, hok, hct, hb] at h
      | contentTypeError => simp [handle_response, hok, hct, hb] at h
    · simp [handle_response, hok, hct] at h

/-- Witness for C4: a concrete successful JSON response decodes, a
concrete successful binary response yields its bytes. -/
theorem C4_witness :
    handle_response cJsonOkResponse = .ret (.obj [("bag_id", .str "bag-1")])
    ∧ handle_response cBytesOkResponse = .retBytes [7, 8, 9] :=
  ⟨(C4_success_returns_body cJsonOkResponse rfl).1
      (.obj [("bag_id", .str "bag-1")]) rfl rfl,
   (C4_success_returns_body cBytesOkResponse rfl).2.1 rfl⟩

/-- C5, confirmed: on a successful download, `download_file` returns the
resolved target path as a string; the path is the extracted original
filename when the destination is omitted, the destination joined with the
extracted filename when the destination is an existing directory, and the
given destination verbatim otherwise; and the extraction yields the
literal `downloaded_file` when the `Content-Disposition` header is absent
or no `filename=` token matches. -/
theorem C5_download_destination_resolution (env : Env) (c : Client)
    (st : ClientState) (bag_id : String) (destination : Option String)
    (b : List Nat)
    (hsucc : handle_response (env.http (download_request c bag_id)) = .retBytes b) :
    (download_file env c st bag_id destination).outcome =
      .ok (resolve_download_destination env.fsIsDir
            (env.http (download_request c bag_id)).headers destination)
    ∧ (destination = none →
        (download_file env c st bag_id destination).outcome =
          .ok (get_filename_from_headers (env.http (download_request c bag_id)).headers))
    ∧ (∀ d, destination = some d → env.fsIsDir d = true →
        (download_file env c st bag_id destination).outcome =
          .ok (pathJoin d
                (get_filename_from_headers (env.http (download_request c bag_id)).headers)))
    ∧ (∀ d, destination = some d → env.fsIsDir d = false →
        (download_file env c st bag_id destination).outcome = .ok d)
    ∧ (∀ hs, List.lookup "Content-Disposition" hs = none →
        get_filename_from_headers hs = "downloaded_file")
    ∧ (∀ hs cd, List.lookup "Content-Disposition" hs = some cd →
        searchFilename cd.toList = none →
        get_filename_from_headers hs = "downloaded_file") := by
  have hmain : (download_file env c st bag_id destination).outcome =
      .ok (resolve_download_destination env.fsIsDir
            (env.http (download_request c bag_id)).headers destination) := by
    simp [download_file, hsucc]
  refine ⟨hmain, ?_, ?_, ?_, ?_, ?_⟩
  · intro hdest
    rw [hmain, hdest]
    rfl
  · intro d hdest hdir
    rw [hmain, hdest]
    simp [resolve_download_destination, hdir]
  · intro d hdest hdir
    rw [hmain, hdest]
    simp [resolve_download_destination, hdir]
  · intro hs h
    have hz : strContains "" "filename=" = false := rfl
    simp [get_filename_from_headers, getHeader, h, hz]
  · intro hs cd h hsearch
    simp only [get_filename_from_headers, getHeader, h, Option.getD_some]
    split
    · rw [hsearch]
    · rfl

/-- Witness for C5: downloading into the existing directory `out` with
header `Content-Disposition: attachment; filename="report.txt"` saves to
`out/report.txt`; with no destination it saves to `report.txt`. -/
theorem C5_witness :
    (download_file cEnvDownload cClient cState0 "b1" (some "out")).outcome =
      .ok "out/report.txt"
    ∧ (download_file cEnvDownload cClient cState0 "b1" none).outcome =
      .ok "report.txt" :=
  ⟨(C5_download_destination_resolution cEnvDownload cClient cState0 "b1"
      (some "out") [104, 105] rfl).2.2.1 "out" rfl rfl,
   (C5_download_destination_resolution cEnvDownload cClient cState0 "b1"
      none [104, 105] rfl).2.1 rfl⟩

/-- C6, confirmed: `upload_file` on a path that does not exist ends in the
local `FileNotFoundError` (a distinct constructor from the three remote
error kinds) with an empty request trace, and `upload_folder` does the
same when its path is missing or not a directory. -/
theorem C6_missing_path_fails_before_request (env : Env) (c : Client)
    (st : ClientState) (p d : String) :
    (env.fsExists p = false →
      upload_file env c st p d =
        ⟨.localError ("Archivo no encontrado: " ++ p), ensure_session st, []⟩)
    ∧ ((env.fsExists p = false ∨ env.fsIsDir p = false) →
      upload_folder env c st p d =
        ⟨.localError ("Carpeta no encontrada: " ++ p), ensure_session st, [],
         false, false⟩) := by
  constructor
  · intro h
    simp [upload_file, h]
  · rintro (h | h) <;> simp [upload_folder, h]

/-- Witness for C6: in an environment where no local path exists, both
uploads fail locally and issue no request. -/
theorem C6_witness :
    upload_file cEnvMissing cClient cState0 "data.txt" "d" =
      ⟨.localError ("Archivo no encontrado: " ++ "data.txt"),
       ensure_session cState0, []⟩
    ∧ upload_folder cEnvMissing cClient cState0 "dir" "d" =
      ⟨.localError ("Carpeta no encontrada: " ++ "dir"),
       ensure_session cState0, [], false, false⟩ :=
  ⟨(C6_missing_path_fails_before_request cEnvMissing cClient cState0
      "data.txt" "d").1 rfl,
   (C6_missing_path_fails_before_request cEnvMissing cClient cState0
      "dir" "d").2 (Or.inl rfl)⟩

/-- C7, confirmed: whenever an `upload_folder` run reaches the creation of
the temporary zip path, the temporary file no longer exists once the call
has unwound — the `finally` block removes it on the archiving-failure
path, on every interpreter-error path and on the success path alike. -/
theorem C7_temp_zip_always_cleaned (env : Env) (c : Client)
    (st : ClientState) (p d : String)
    (_hreach : (upload_folder env c st p d).tempCreated = true) :
    (upload_folder env c st p d).tempRemains = false := by
  simp only [upload_folder]
  repeat' split
  all_goals rfl

/-- Witness for C7: a run whose archiving step fails still leaves no
temporary zip behind. -/
theorem C7_witness :
    (upload_folder cEnvZipFail cClient cState0 "f" "d").tempRemains = false :=
  C7_temp_zip_always_cleaned cEnvZipFail cClient cState0 "f" "d" rfl

/-- C8, confirmed: `_ensure_session` is idempotent — on an open session it
returns the state unchanged (the same session stays in place), composing it
with itself changes nothing, and on an absent or closed session it installs
a fresh open session different from the old handle; `close` is a no-op on
an absent or already-closed session, so `close ∘ close = close`. -/
theorem C8_session_lifecycle :
    (∀ st, sessionOpen st = true → ensure_session st = st)
    ∧ (∀ st, ensure_session (ensure_session st) = ensure_session st)
    ∧ (∀ st, sessionOpen st = false →
        (ensure_session st).session = some ⟨st.nextSid, false⟩
        ∧ st.session ≠ (ensure_session st).session
        ∧ sessionOpen (ensure_session st) = true)
    ∧ (∀ st, close (close st) = close st) := by
  refine ⟨?_, ?_, ?_, ?_⟩
  · rintro ⟨sess, n⟩ h
    cases sess with
    | none => simp [sessionOpen] at h
    | some s =>
        cases s with
        | mk sid closed =>
            cases closed with
            | true => simp [sessionOpen] at h
            | false => simp [ensure_session]
  · rintro ⟨sess, n⟩
    cases sess with
    | none => simp [ensure_session]
    | some s =>
        cases s with
        | mk sid closed => cases closed <;> simp [ensure_session]
  · rintro ⟨sess, n⟩ h
    cases sess with
    | none => exact ⟨rfl, by simp [ensure_session], rfl⟩
    | some s =>
        cases s with
        | mk sid closed =>
            cases closed with
            | false => simp [sessionOpen] at h
            | true => exact ⟨rfl, by simp [ensure_session], rfl⟩
  · rintro ⟨sess, n⟩
    cases sess with
    | none => rfl
    | some s =>
        cases s with
        | mk sid closed => cases closed <;> simp [close]

/-- Witness for C8: a state holding an open session is left unchanged; a
fresh state gets session id 0; double close equals single close. -/
theorem C8_witness :
    ensure_session ⟨some ⟨5, false⟩, 6⟩ = ⟨some ⟨5, false⟩, 6⟩
    ∧ (ensure_session cState0).session = some ⟨0, false⟩
    ∧ close (close (ensure_session cState0)) = close (ensure_session cState0) :=
  ⟨C8_session_lifecycle.1 ⟨some ⟨5, false⟩, 6⟩ rfl,
   (C8_session_lifecycle.2.2.1 cState0 rfl).1,
   C8_session_lifecycle.2.2.2 (ensure_session cState0)⟩

/-- C9, confirmed: each of the eight public operations first ensures an
open session and never closes it — the state after any call, including
calls ending in a local, remote or other error, is exactly
`ensure_session st`, which always holds an open session; and the scoped
exit `__aexit__` is exactly `close`, the only session-closing entry
points. -/
theorem C9_operations_preserve_open_session (env : Env) (c : Client)
    (st : ClientState) :
    (∀ p d, (upload_file env c st p d).state = ensure_session st)
    ∧ (∀ p d, (upload_folder env c st p d).state = ensure_session st)
    ∧ (∀ b, (delete_file env c st b).state = ensure_session st)
    ∧ (∀ b dest, (download_file env c st b dest).state = ensure_session st)
    ∧ (∀ b, (download_file_content env c st b).state = ensure_session st)
    ∧ (get_user_info env c st).state = ensure_session st
    ∧ (get_user_files_list env c st).state = ensure_session st
    ∧ (∀ b, (add_by_bag_id env c st b).state = ensure_session st)
    ∧ sessionOpen (ensure_session st) = true
    ∧ aexit st = close st := by
  refine ⟨?_, ?_, ?_, ?_, ?_, ?_, ?_, ?_, ?_, rfl⟩
  · intro p d
    simp only [upload_file]
    repeat' split
    all_goals rfl
  · intro p d
    simp only [upload_folder]
    repeat' split
    all_goals rfl
  · intro b
    simp only [delete_file]
    repeat' split
    all_goals rfl
  · intro b dest
    simp only [download_file]
    repeat' split
    all_goals rfl
  · intro b
    simp only [download_file_content]
    repeat' split
    all_goals rfl
  · simp only [get_user_info]
    repeat' split
    all_goals rfl
  · simp only [get_user_files_list]
    repeat' split
    all_goals rfl
  · intro b
    simp only [add_by_bag_id]
    repeat' split
    all_goals rfl
  · rcases st with ⟨sess, n⟩
    cases sess with
    | none => rfl
    | some s =>
        cases s with
        | mk sid closed => cases closed <;> simp [ensure_session, sessionOpen]

/-- C10, confirmed: a falsy explicit token (`None` or `""`) makes
construction fall back to the `OPENFILES_API_TOKEN` environment variable;
construction succeeds exactly when the resolved token is a non-empty
string (raising `ValueError` otherwise), and every constructed client
carries that non-empty token. -/
theorem C10_token_resolution (tok envTok burl : Option String) :
    ((tok = none ∨ tok = some "") →
      init_client tok envTok burl = init_client none envTok burl)
    ∧ (∀ cl, init_client tok envTok burl = .ok cl →
        cl.api_token ≠ "" ∧ pyOrStr tok envTok = some cl.api_token)
    ∧ ((∃ cl, init_client tok envTok burl = .ok cl)
        ↔ (∃ t, pyOrStr tok envTok = some t ∧ t ≠ "")) := by
  refine ⟨?_, ?_, ?_⟩
  · rintro (rfl | rfl)
    · rfl
    · simp [init_client, pyOrStr]
  · intro cl h
    rw [init_client] at h
    rcases hp : pyOrStr tok envTok with _ | t
    · rw [hp] at h
      simp at h
    · rw [hp] at h
      by_cases ht : t = ""
      · simp [ht] at h
      · simp only [ht, if_false] at h
        cases h
        exact ⟨ht, rfl⟩
  · constructor
    · rintro ⟨cl, h⟩
      rw [init_client] at h
      rcases hp : pyOrStr tok envTok with _ | t
      · rw [hp] at h
        simp at h
      · rw [hp] at h
        by_cases ht : t = ""
        · simp [ht] at h
        · exact ⟨t, rfl, ht⟩
    · rintro ⟨t, hp, ht⟩
      refine ⟨⟨t, (pyOrStr burl (some BASE_URL)).getD BASE_URL⟩, ?_⟩
      rw [init_client, hp]
      simp [ht]

/-- Witness for C10: an empty explicit token falls back to the
environment variable; a concrete successful construction carries a
non-empty token; a concrete resolvable token makes construction succeed. -/
theorem C10_witness :
    init_client (some "") (some "tok") none = init_client none (some "tok") none
    ∧ ("tok" : String) ≠ ""
    ∧ (∃ cl, init_client (some "abc") none none = .ok cl) :=
  ⟨(C10_token_resolution (some "") (some "tok") none).1 (Or.inr rfl),
   ((C10_token_resolution (some "") (some "tok") none).2.1
      ⟨"tok", BASE_URL⟩ rfl).1,
   (C10_token_resolution (some "abc") none none).2.2.mpr ⟨"abc", rfl, by simp⟩⟩

end Openfiles
